/-
Verification of `ago_requests.py`: recipe functions that convert tabular
location data to spatial records and publish them to ArcGIS Online via its
REST API.  The tabular data model (pandas DataFrame / geopandas
GeoDataFrame) is shallowly embedded: a frame is a column-name list, a
parallel dtype list, and a list of rows, each row a list of scalar values.
HTTP endpoints are modelled as explicit response values or backend states
passed to the functions that call them.
-/
import Mathlib

set_option linter.unusedVariables false

/-- A timestamp, as carried by a pandas datetime64 column or a Python
`datetime` object.  Only the fields that print in the textual forms the
code produces are modelled. -/
structure PyDateTime where
  year : Nat
  month : Nat
  day : Nat
  hour : Nat
  minute : Nat
  second : Nat
deriving DecidableEq, Repr

/-- Zero-padded two-digit rendering used by both textual datetime forms. -/
def pad2 (n : Nat) : String :=
  if n < 10 then "0" ++ toString n else toString n

/-- `str()` of a pandas Timestamp: "YYYY-MM-DD HH:MM:SS". -/
def PyDateTime.toText (d : PyDateTime) : String :=
  toString d.year ++ "-" ++ pad2 d.month ++ "-" ++ pad2 d.day ++ " "
    ++ pad2 d.hour ++ ":" ++ pad2 d.minute ++ ":" ++ pad2 d.second

/-- `datetime.isoformat()`: "YYYY-MM-DDTHH:MM:SS". -/
def PyDateTime.isoformat (d : PyDateTime) : String :=
  toString d.year ++ "-" ++ pad2 d.month ++ "-" ++ pad2 d.day ++ "T"
    ++ pad2 d.hour ++ ":" ++ pad2 d.minute ++ ":" ++ pad2 d.second

/-- A scalar cell value of a Record Table: text, number, timestamp or
null/NaN (pandas `NaN`/`NaT`/`None` are collapsed into `null`). -/
inductive Value where
  | str (s : String)
  | num (q : ℚ)
  | time (d : PyDateTime)
  | null
deriving DecidableEq, Repr

/-- Column dtype as pandas tracks it: `dt64` is what
`pd.api.types.is_datetime64_any_dtype` recognises. -/
inductive DType where
  | objT
  | numT
  | dt64
deriving DecidableEq, Repr

/-- A pandas DataFrame: ordered column names, their dtypes (parallel list),
and the rows, each row parallel to `columns`. -/
structure DataFrame where
  columns : List String
  dtypes : List DType
  rows : List (List Value)
deriving DecidableEq, Repr

/-- Cell of a row at a column index (out-of-range reads as null; rows of a
well-formed frame are as long as `columns`). -/
def getCell (row : List Value) (i : Nat) : Value :=
  row.getD i .null

/-- Label lookup `df[c]`: index of the first column named `c`, none when
the label is absent (pandas raises `KeyError`). -/
def colIndex (df : DataFrame) (c : String) : Option Nat :=
  df.columns.findIdx? (· = c)

/-! ### Schema Sanitizer (`prepare_df_for_ago`, lines 31-49) -/

/-- The characters removed from column names, in the order the source loops
over them: `['(', ')', '#', '-', ' ', "'"]`. -/
def bannedChars : List Char := ['(', ')', '#', '-', ' ', '\'']

/-- One iteration of the loop body: `name.replace(char, '')`, which removes
every occurrence of the single character `c`. -/
def removeChar (s : String) (c : Char) : String :=
  ⟨s.data.filter (· ≠ c)⟩

/-- `clean_name` (lines 37-41): successively strip each banned character
from the name. -/
def clean_name (name : String) : String :=
  bannedChars.foldl removeChar name

/-- `prepare_df_for_ago` (lines 31-49): copy the frame, clean all column
names, then drop rows whose `LatLongSource` cell is null.  `dropna` with a
missing column label raises `KeyError`, modelled as `none`. -/
def prepare_df_for_ago (df : DataFrame) : Option DataFrame :=
  let cols := df.columns.map clean_name
  match cols.findIdx? (· = "LatLongSource") with
  | none => none
  | some i =>
      some { columns := cols
             dtypes := df.dtypes
             rows := df.rows.filter (fun r => getCell r i ≠ .null) }

/-- The source starts from `df_ago = df.copy()` and only rebinds or writes
`df_ago`; the caller's frame is untouched.  This pairs the state of the
caller's frame after the call (first component) with the returned value
(second component), making the absence of in-place mutation observable. -/
def prepareEffect (df : DataFrame) : DataFrame × Option DataFrame :=
  (df, prepare_df_for_ago df)

/-! ### Geometry Builder (`df_to_gdf`, lines 16-29) -/

/-- A GeoDataFrame: the frame's data plus a per-row point geometry.
The geometry column is kept as a separate parallel list, as the spec's
design notes suggest; its dtype is never datetime, so the datetime→text
loop of the source leaves it alone either way. -/
structure GeoDataFrame where
  columns : List String
  dtypes : List DType
  rows : List (List Value)
  geometry : List (ℚ × ℚ)
deriving DecidableEq, Repr

/-- `shapely.Point(xy)` applied to one `(lon, lat)` pair: succeeds only on
numeric coordinates (a string or null raises). -/
def mkPoint (lon lat : Value) : Option (ℚ × ℚ) :=
  match lon, lat with
  | .num x, .num y => some (x, y)
  | _, _ => none

/-- `str()` on a cell of a datetime64 column: a timestamp prints via
`PyDateTime.toText`, a `NaT` prints as "NaT" (other cases cannot occur in
a well-typed datetime column but are rendered anyway). -/
def strOfValue : Value → String
  | .time d => d.toText
  | .null => "NaT"
  | .str s => s
  | .num q => toString q

/-- The datetime→text pass (lines 25-27) on the cells of one row, `j` the
index of the first cell: every cell sitting in a datetime64-dtyped column
is replaced by its textual form. -/
def convertCells (dtypes : List DType) (j : Nat) : List Value → List Value
  | [] => []
  | v :: vs =>
      (if dtypes.getD j .objT = .dt64 then .str (strOfValue v) else v)
        :: convertCells dtypes (j + 1) vs

/-- The datetime→text pass on one whole row. -/
def convertDatetimeRow (dtypes : List DType) (row : List Value) : List Value :=
  convertCells dtypes 0 row

/-- The list comprehension of line 20: one point per row, aborting the
whole conversion on the first row with a non-numeric coordinate. -/
def pointsOfRows (li ti : Nat) : List (List Value) → Option (List (ℚ × ℚ))
  | [] => some []
  | r :: rs => do
      let p ← mkPoint (getCell r li) (getCell r ti)
      let ps ← pointsOfRows li ti rs
      pure (p :: ps)

/-- `df_to_gdf` (lines 16-29): build one point per row from
`zip(df[lon_col], df[lat_col])` — axis order (longitude, latitude) — then
rewrite datetime64 columns to text.  A missing column label or a
non-numeric coordinate raises, modelled as `none`. -/
def df_to_gdf (df : DataFrame) (lat_col lon_col : String) : Option GeoDataFrame := do
  let li ← colIndex df lon_col
  let ti ← colIndex df lat_col
  let geom ← pointsOfRows li ti df.rows
  pure { columns := df.columns
         dtypes := df.dtypes.map (fun t => if t = .dt64 then .objT else t)
         rows := df.rows.map (convertDatetimeRow df.dtypes)
         geometry := geom }

/-! ### Folder Resolver (`get_ago_folderID`, lines 79-116) -/

/-- A folder entry as returned by the folder-listing endpoint. -/
structure Folder where
  title : String
  id : String
deriving DecidableEq, Repr

/-- Model of the external AGO content backend for one user: the folders
the listing endpoint returns (in listing order) and a counter from which
the creation endpoint mints fresh ids (spec §6: folder listing and folder
creation endpoints). -/
structure AgoBackend where
  folders : List Folder
  nextId : Nat
deriving DecidableEq, Repr

/-- The `createFolder` endpoint: append a folder with the given title and
a fresh id, return it. -/
def createFolder (b : AgoBackend) (title : String) : Folder × AgoBackend :=
  let f : Folder := { title := title, id := "f" ++ toString b.nextId }
  (f, { folders := b.folders ++ [f], nextId := b.nextId + 1 })

/-- `get_ago_folderID` (lines 79-116): list the folders, return the id of
the first whose title equals `folder_name`; otherwise call the creation
endpoint and return the new folder's id.  Result: (returned id, backend
state after the call, whether the creation endpoint was invoked). -/
def get_ago_folderID (b : AgoBackend) (folder_name : String) :
    String × AgoBackend × Bool :=
  match b.folders.find? (fun f => f.title = folder_name) with
  | some f => (f.id, b, false)
  | none =>
      let fc := createFolder b folder_name
      (fc.1.id, fc.2, true)

/-! ### Service Provisioner (`create_feature_service`, lines 119-157) -/

/-- The fields of the service-creation response JSON that the code
inspects; `none` models an absent key. -/
structure ServiceResponse where
  serviceItemId : Option String
  encodedServiceURL : Option String
deriving DecidableEq, Repr

/-- Textual rendering of the response body as it is interpolated into the
exception message (`f"... {response_json}"`). -/
def renderResponse (r : ServiceResponse) : String :=
  "\x7bserviceItemId: " ++ toString (repr r.serviceItemId)
    ++ ", encodedServiceURL: " ++ toString (repr r.encodedServiceURL) ++ "\x7d"

/-- Python `str.replace(old, new)` on character lists: replace every
non-overlapping occurrence of `old`, scanning left to right.  The fuel
argument (one unit per character consumed) makes the recursion structural;
`pyReplace` supplies enough fuel for the whole string. -/
def replaceFuel (old new : List Char) : Nat → List Char → List Char
  | _, [] => []
  | 0, s => s
  | fuel + 1, a :: s =>
      if old.isPrefixOf (a :: s) then
        new ++ replaceFuel old new fuel (List.drop (old.length - 1) s)
      else
        a :: replaceFuel old new fuel s

/-- Python `str.replace(old, new)` for a nonempty `old` (as in the
source's literal `'/rest/'`). -/
def pyReplace (s old new : String) : String :=
  if old.data.isEmpty then s
  else ⟨replaceFuel old.data new.data s.data.length s.data⟩

/-- `create_feature_service` (lines 148-157), from the point where the
response arrives: when both `serviceItemId` and `encodedServiceURL` are
present, return the id and the admin URL obtained by substituting
`/rest/` with `/rest/admin/`; otherwise raise an exception embedding the
raw response body. -/
def create_feature_service (resp : ServiceResponse) :
    Except String (String × String) :=
  match resp.serviceItemId, resp.encodedServiceURL with
  | some sid, some url =>
      .ok (sid, pyReplace url "/rest/" "/rest/admin/")
  | _, _ =>
      .error ("Error creating feature service: " ++ renderResponse resp)

/-! ### Feature Uploader (`add_features`, lines 228-281) -/

/-- Python `float(v)` on a cell: succeeds on a number, raises on null,
a timestamp, or text (parsing of numeric strings is not exercised by the
source's tables and is not modelled). -/
def pyFloat : Value → Option ℚ
  | .num q => some q
  | _ => none

/-- Attribute construction for one cell (lines 238-243): a `datetime`
becomes its `isoformat()` text, a missing value becomes an explicit null,
everything else passes through. -/
def toAttribute (v : Value) : Value :=
  match v with
  | .time d => .str d.isoformat
  | .null => .null
  | v => v

/-- One `{geometry, attributes}` record of the feature batch. -/
structure Feature where
  x : ℚ
  y : ℚ
  attributes : List (String × Value)
deriving DecidableEq, Repr

/-- Lines 234-255, one loop iteration: build the attributes mapping and
the geometry for a row.  The whole body sits in a `try`, so any failure
(here: a non-numeric coordinate or a missing coordinate column) yields
`none` — the row is logged and skipped, the loop continues. -/
def buildFeature (cols : List String) (latcol loncol : String)
    (row : List Value) : Option Feature := do
  let li ← cols.findIdx? (· = loncol)
  let ti ← cols.findIdx? (· = latcol)
  let x ← pyFloat (getCell row li)
  let y ← pyFloat (getCell row ti)
  pure { x := x, y := y
         attributes := cols.mapIdx (fun j c => (c, toAttribute (getCell row j))) }

/-- One entry of the `addResults` array of the ingestion endpoint. -/
structure AddResult where
  success : Bool
deriving DecidableEq, Repr

/-- The outcome of the single POST to `/0/addFeatures`:
a transport/HTTP failure (connection error or non-2xx status, i.e. a
`requests.RequestException`), or a JSON body with or without the
`addResults` key. -/
inductive UploadResponse where
  | transportFailure
  | ok (addResults : Option (List AddResult))
deriving DecidableEq, Repr

/-- Everything observable about one `add_features` call. -/
structure UploadRun where
  submitted : List Feature
  results : List AddResult
  skippedLogs : Nat
  networkCall : Bool
  transportErrorLogged : Bool
deriving DecidableEq, Repr

/-- `add_features` (lines 228-281): build the batch row by row, skipping
and logging rows whose construction fails; if the batch is empty, return
`[]` without a network call; otherwise POST once and, on transport/HTTP
failure or a body without `addResults`, log and return `[]`, else return
the raw `addResults` list.  `respond` models the ingestion endpoint. -/
def add_features (cols : List String) (rows : List (List Value))
    (latcol loncol : String) (respond : List Feature → UploadResponse) :
    UploadRun :=
  let feats := rows.filterMap (buildFeature cols latcol loncol)
  let skipped := rows.countP (fun r => (buildFeature cols latcol loncol r).isNone)
  if feats.isEmpty then
    { submitted := [], results := [], skippedLogs := skipped
      networkCall := false, transportErrorLogged := false }
  else
    match respond feats with
    | .transportFailure =>
        { submitted := feats, results := [], skippedLogs := skipped
          networkCall := true, transportErrorLogged := true }
    | .ok none =>
        { submitted := feats, results := [], skippedLogs := skipped
          networkCall := true, transportErrorLogged := false }
    | .ok (some rs) =>
        { submitted := feats, results := rs, skippedLogs := skipped
          networkCall := true, transportErrorLogged := false }

/-! ### List-level helper lemmas -/

theorem foldl_removeChar_eq_filter (cs : List Char) (l : List Char) :
    cs.foldl (fun acc c => acc.filter (· ≠ c)) l
      = l.filter (fun a => ¬ (a ∈ cs)) := by
  induction cs generalizing l with
  | nil => simp
  | cons c cs ih =>
      simp only [List.foldl_cons, ih, List.filter_filter]
      apply List.filter_congr
      intro a _
      by_cases hc : a = c <;> by_cases hm : a ∈ cs <;> simp [hc, hm]

theorem clean_name_data (name : String) :
    (clean_name name).data = name.data.filter (fun a => ¬ (a ∈ bannedChars)) := by
  have h : ∀ cs : List Char, ∀ s : String,
      (cs.foldl removeChar s).data = cs.foldl (fun acc c => acc.filter (· ≠ c)) s.data := by
    intro cs
    induction cs with
    | nil => intro s; rfl
    | cons c cs ih => intro s; simpa [removeChar] using ih ⟨s.data.filter (· ≠ c)⟩
  rw [clean_name, h, foldl_removeChar_eq_filter]

theorem length_filter_add_countP_not (l : List α) (q : α → Bool) :
    (l.filter q).length + l.countP (fun a => !(q a)) = l.length := by
  induction l with
  | nil => rfl
  | cons a l ih =>
      by_cases h : q a <;>
        simp [List.filter_cons, List.countP_cons, h, ← ih] <;> omega

theorem clean_name_idem (n : String) : clean_name (clean_name n) = clean_name n := by
  apply String.ext
  rw [clean_name_data, clean_name_data]
  apply List.filter_eq_self.mpr
  intro a ha
  exact (List.mem_filter.mp ha).2

theorem mkPoint_eq_some (lon lat : Value) (p : ℚ × ℚ)
    (h : mkPoint lon lat = some p) :
    lon = .num p.1 ∧ lat = .num p.2 := by
  cases lon <;> cases lat <;> simp [mkPoint] at h
  exact ⟨congrArg (fun z => Value.num z.1) h, congrArg (fun z => Value.num z.2) h⟩

theorem pointsOfRows_spec (li ti : Nat) (rows : List (List Value))
    (ps : List (ℚ × ℚ)) (h : pointsOfRows li ti rows = some ps) :
    ps.length = rows.length
  ∧ ∀ (i : Nat) (r : List Value), rows[i]? = some r →
      ∃ x y, getCell r li = .num x ∧ getCell r ti = .num y
        ∧ ps[i]? = some (x, y) := by
  induction rows generalizing ps with
  | nil =>
      simp only [pointsOfRows, Option.some.injEq] at h
      subst h
      simp
  | cons r rs ih =>
      simp only [pointsOfRows, Option.bind_eq_bind, Option.bind_eq_some,
        Option.pure_def, Option.some.injEq] at h
      obtain ⟨p, hp, qs, hqs, hcons⟩ := h
      subst hcons
      obtain ⟨hlen, hget⟩ := ih qs hqs
      obtain ⟨hlon, hlat⟩ := mkPoint_eq_some _ _ _ hp
      refine ⟨by simp [hlen], ?_⟩
      intro i r' hr'
      cases i with
      | zero =>
          simp only [List.getElem?_cons_zero, Option.some.injEq] at hr'
          subst hr'
          exact ⟨p.1, p.2, hlon, hlat, by simp⟩
      | succ i =>
          simp only [List.getElem?_cons_succ] at hr' ⊢
          exact hget i r' hr'

theorem convertCells_length (dtypes : List DType) (j : Nat) (row : List Value) :
    (convertCells dtypes j row).length = row.length := by
  induction row generalizing j with
  | nil => rfl
  | cons v vs ih => simp [convertCells, ih]

theorem convertCells_get (dtypes : List DType) (j : Nat) (row : List Value)
    (k : Nat) :
    (convertCells dtypes j row)[k]? = (row[k]?).map
      (fun v => if dtypes.getD (j + k) .objT = .dt64
                then .str (strOfValue v) else v) := by
  induction row generalizing j k with
  | nil => simp [convertCells]
  | cons v vs ih =>
      cases k with
      | zero => simp [convertCells]
      | succ k =>
          simp only [convertCells, List.getElem?_cons_succ, ih]
          rw [show j + 1 + k = j + (k + 1) by omega]

theorem length_filterMap_add_countP_none (f : α → Option β) (l : List α) :
    (l.filterMap f).length + l.countP (fun a => (f a).isNone) = l.length := by
  induction l with
  | nil => rfl
  | cons a l ih =>
      cases hf : f a <;>
        simp +arith [List.filterMap_cons, List.countP_cons, hf, ← ih]

theorem get_ago_folderID_found (b : AgoBackend) (name : String) (f : Folder)
    (hf : b.folders.find? (fun x => x.title = name) = some f) :
    get_ago_folderID b name = (f.id, b, false) := by
  unfold get_ago_folderID
  rw [hf]

theorem get_ago_folderID_missing (b : AgoBackend) (name : String)
    (hf : b.folders.find? (fun x => x.title = name) = none) :
    get_ago_folderID b name
      = ("f" ++ toString b.nextId,
         { folders := b.folders ++ [⟨name, "f" ++ toString b.nextId⟩]
           nextId := b.nextId + 1 },
         true) := by
  unfold get_ago_folderID createFolder
  rw [hf]

/-! ### Theorems for the claims -/

/-- C1: whenever the Geometry Builder succeeds, every row's point geometry
has x equal to the row's longitude value and y equal to the row's latitude
value exactly — axis order (longitude, latitude). -/
theorem df_to_gdf_point_coords (df : DataFrame) (lat_col lon_col : String)
    (g : GeoDataFrame) (h : df_to_gdf df lat_col lon_col = some g) :
    ∃ li ti, colIndex df lon_col = some li ∧ colIndex df lat_col = some ti
      ∧ g.geometry.length = df.rows.length
      ∧ ∀ (i : Nat) (r : List Value), df.rows[i]? = some r →
          ∃ x y, getCell r li = .num x ∧ getCell r ti = .num y
            ∧ g.geometry[i]? = some (x, y) := by
  simp only [df_to_gdf, Option.bind_eq_bind, Option.bind_eq_some,
    Option.pure_def, Option.some.injEq] at h
  obtain ⟨li, hli, ti, hti, ps, hps, hg⟩ := h
  subst hg
  obtain ⟨hlen, hget⟩ := pointsOfRows_spec li ti df.rows ps hps
  exact ⟨li, ti, hli, hti, hlen, hget⟩

def dfC1 : DataFrame :=
  { columns := ["Name", "Lat", "Lon"]
    dtypes := [.objT, .numT, .numT]
    rows := [[.str "a", .num 50, .num (-120)]] }

def gC1 : GeoDataFrame :=
  { columns := ["Name", "Lat", "Lon"]
    dtypes := [.objT, .numT, .numT]
    rows := [[.str "a", .num 50, .num (-120)]]
    geometry := [((-120 : ℚ), (50 : ℚ))] }

/-- C1 witness: one row with Lat=50, Lon=-120 yields the point x=-120,
y=50. -/
theorem df_to_gdf_point_coords_witness :
    df_to_gdf dfC1 "Lat" "Lon" = some gC1
  ∧ (∃ li ti, colIndex dfC1 "Lon" = some li ∧ colIndex dfC1 "Lat" = some ti
      ∧ gC1.geometry.length = dfC1.rows.length
      ∧ ∀ (i : Nat) (r : List Value), dfC1.rows[i]? = some r →
          ∃ x y, getCell r li = .num x ∧ getCell r ti = .num y
            ∧ gC1.geometry[i]? = some (x, y)) :=
  ⟨by decide, df_to_gdf_point_coords dfC1 "Lat" "Lon" gC1 (by decide)⟩

/-- C4: whenever the Geometry Builder succeeds, every cell sitting in a
datetime64-dtyped column is replaced by its textual representation, and
cells of non-temporal columns are unchanged. -/
theorem df_to_gdf_datetime_text (df : DataFrame) (lat_col lon_col : String)
    (g : GeoDataFrame) (h : df_to_gdf df lat_col lon_col = some g) :
    g.rows.length = df.rows.length
  ∧ ∀ (i : Nat) (r : List Value), df.rows[i]? = some r →
      ∃ r', g.rows[i]? = some r' ∧ r'.length = r.length
        ∧ ∀ (j : Nat) (v : Value), r[j]? = some v →
            (df.dtypes.getD j .objT = .dt64 →
                r'[j]? = some (.str (strOfValue v)))
          ∧ (df.dtypes.getD j .objT ≠ .dt64 → r'[j]? = some v) := by
  simp only [df_to_gdf, Option.bind_eq_bind, Option.bind_eq_some,
    Option.pure_def, Option.some.injEq] at h
  obtain ⟨li, hli, ti, hti, ps, hps, hg⟩ := h
  subst hg
  constructor
  · simp
  · intro i r hr
    refine ⟨convertDatetimeRow df.dtypes r, ?_, convertCells_length df.dtypes 0 r, ?_⟩
    · simp [List.getElem?_map, hr]
    · intro j v hv
      have hc := convertCells_get df.dtypes 0 r j
      rw [Nat.zero_add] at hc
      constructor
      · intro hdt
        rw [convertDatetimeRow, hc, hv, Option.map_some']
        exact congrArg some (if_pos hdt)
      · intro hdt
        rw [convertDatetimeRow, hc, hv, Option.map_some']
        exact congrArg some (if_neg hdt)

def dfC4 : DataFrame :=
  { columns := ["Name", "Lat", "Lon", "LatLongSource", "Visited"]
    dtypes := [.objT, .numT, .numT, .objT, .dt64]
    rows := [[.str "a", .num 50, .num (-120), .str "GPS",
              .time ⟨2023, 5, 1, 0, 0, 0⟩]] }

def gC4 : GeoDataFrame :=
  { columns := ["Name", "Lat", "Lon", "LatLongSource", "Visited"]
    dtypes := [.objT, .numT, .numT, .objT, .objT]
    rows := [[.str "a", .num 50, .num (-120), .str "GPS",
              .str "2023-05-01 00:00:00"]]
    geometry := [((-120 : ℚ), (50 : ℚ))] }

/-- C4 witness: the spec's end-to-end scenario — Visited=2023-05-01T00:00:00
becomes the literal string "2023-05-01 00:00:00", the other columns are
unchanged, and the geometry is x=Lon, y=Lat. -/
theorem df_to_gdf_datetime_text_witness :
    df_to_gdf dfC4 "Lat" "Lon" = some gC4
  ∧ (gC4.rows.length = dfC4.rows.length
      ∧ ∀ (i : Nat) (r : List Value), dfC4.rows[i]? = some r →
          ∃ r', gC4.rows[i]? = some r' ∧ r'.length = r.length
            ∧ ∀ (j : Nat) (v : Value), r[j]? = some v →
                (dfC4.dtypes.getD j .objT = .dt64 →
                    r'[j]? = some (.str (strOfValue v)))
              ∧ (dfC4.dtypes.getD j .objT ≠ .dt64 → r'[j]? = some v)) :=
  ⟨by decide, df_to_gdf_datetime_text dfC4 "Lat" "Lon" gC4 (by decide)⟩

/-- C2: for every input column name, `clean_name` outputs a name with zero
occurrences of any of `(`, `)`, `#`, `-`, space and apostrophe, and with
all other characters preserved in their original order. -/
theorem clean_name_strips_banned_chars (name : String) :
    (∀ c ∈ bannedChars, c ∉ (clean_name name).data)
  ∧ (clean_name name).data = name.data.filter (fun a => ¬ (a ∈ bannedChars)) := by
  refine ⟨?_, clean_name_data name⟩
  intro c hc hmem
  rw [clean_name_data] at hmem
  have := List.of_mem_filter hmem
  simp only [decide_not, Bool.not_eq_true'] at this
  exact absurd hc (by simpa using this)

/-- C3: when the cleaned column set contains `LatLongSource`,
`prepare_df_for_ago` keeps exactly the rows whose provenance cell is
non-null, so the output row count is the input row count minus the number
of null-provenance rows. -/
theorem prepare_row_filtering (df out : DataFrame) (i : Nat)
    (hc : (df.columns.map clean_name).findIdx? (· = "LatLongSource") = some i)
    (h : prepare_df_for_ago df = some out) :
    out.rows = df.rows.filter (fun r => getCell r i ≠ .null)
  ∧ out.rows.length + df.rows.countP (fun r => getCell r i = .null)
      = df.rows.length := by
  unfold prepare_df_for_ago at h
  simp only [hc, Option.some.injEq] at h
  subst h
  refine ⟨rfl, ?_⟩
  have hn := length_filter_add_countP_not df.rows
    (fun r => decide (getCell r i ≠ Value.null))
  simp only [decide_not, Bool.not_not] at hn
  simpa using hn

def dfC3 : DataFrame :=
  { columns := ["SiteName", "LatLongSource"]
    dtypes := [.objT, .objT]
    rows := [[.str "a", .str "GPS"], [.str "b", .null], [.str "c", .str "Map"]] }

/-- C3 witness: a three-row table with one null-provenance row keeps the
two non-null rows. -/
theorem prepare_row_filtering_witness :
    ((dfC3.columns.map clean_name).findIdx? (· = "LatLongSource") = some 1
        ∧ prepare_df_for_ago dfC3 = some
            { columns := ["SiteName", "LatLongSource"]
              dtypes := [.objT, .objT]
              rows := [[.str "a", .str "GPS"], [.str "c", .str "Map"]] })
  ∧ (({ columns := ["SiteName", "LatLongSource"]
        dtypes := [.objT, .objT]
        rows := [[.str "a", .str "GPS"], [.str "c", .str "Map"]] } : DataFrame).rows
        = dfC3.rows.filter (fun r => getCell r 1 ≠ .null)
      ∧ ({ columns := ["SiteName", "LatLongSource"]
           dtypes := [.objT, .objT]
           rows := [[.str "a", .str "GPS"], [.str "c", .str "Map"]] } : DataFrame).rows.length
          + dfC3.rows.countP (fun r => getCell r 1 = .null)
          = dfC3.rows.length) :=
  ⟨⟨by decide, by decide⟩,
    prepare_row_filtering dfC3 _ 1 (by decide) (by decide)⟩

/-- C2 witness: a column name containing all six banned characters. -/
theorem clean_name_strips_banned_chars_witness :
    (∀ c ∈ bannedChars, c ∉ (clean_name "Area (ha) - Temp #1").data)
  ∧ (clean_name "Area (ha) - Temp #1").data
      = "Area (ha) - Temp #1".data.filter (fun a => ¬ (a ∈ bannedChars)) :=
  clean_name_strips_banned_chars "Area (ha) - Temp #1"

def dfC9 : DataFrame :=
  { columns := ["Site Name", "LatLongSource"]
    dtypes := [.objT, .objT]
    rows := [[.str "a", .str "GPS"], [.str "b", .null]] }

def dfC9sanitized : DataFrame :=
  { columns := ["SiteName", "LatLongSource"]
    dtypes := [.objT, .objT]
    rows := [[.str "a", .str "GPS"]] }

/-- C9 counterexample: the source copies the frame (`df_ago = df.copy()`,
line 35) and never writes to the caller's `df`, so after the call the
caller's frame still has the original column names and both rows; the
renamed, filtered frame exists only as the returned value.  The claim
that `df` itself holds the renamed columns and filtered rows is false. -/
theorem prepare_no_mutation_counterexample :
    (prepareEffect dfC9).1 = dfC9
  ∧ prepare_df_for_ago dfC9 = some dfC9sanitized
  ∧ dfC9 ≠ dfC9sanitized := by
  refine ⟨rfl, by decide, by decide⟩

/-- C9 amended: the Schema Sanitizer does not mutate the caller's table;
it returns a sanitized copy with the renamed columns and filtered rows,
while the caller's table is unchanged after the call. -/
theorem prepare_returns_sanitized_copy (df out : DataFrame)
    (h : prepare_df_for_ago df = some out) :
    (prepareEffect df).1 = df
  ∧ out.columns = df.columns.map clean_name
  ∧ ∃ i, (df.columns.map clean_name).findIdx? (· = "LatLongSource") = some i
      ∧ out.rows = df.rows.filter (fun r => getCell r i ≠ .null) := by
  refine ⟨rfl, ?_⟩
  unfold prepare_df_for_ago at h
  cases hfind : (df.columns.map clean_name).findIdx? (· = "LatLongSource") with
  | none => simp only [hfind] at h; exact Option.noConfusion h
  | some i =>
      simp only [hfind, Option.some.injEq] at h
      subst h
      exact ⟨rfl, i, rfl, rfl⟩

/-- C9 amended witness: the concrete frame of the counterexample. -/
theorem prepare_returns_sanitized_copy_witness :
    prepare_df_for_ago dfC9 = some dfC9sanitized
  ∧ ((prepareEffect dfC9).1 = dfC9
      ∧ dfC9sanitized.columns = dfC9.columns.map clean_name
      ∧ ∃ i, (dfC9.columns.map clean_name).findIdx? (· = "LatLongSource") = some i
          ∧ dfC9sanitized.rows = dfC9.rows.filter (fun r => getCell r i ≠ .null)) :=
  ⟨by decide, prepare_returns_sanitized_copy dfC9 dfC9sanitized (by decide)⟩

/-- C10: `prepare_df_for_ago` is idempotent — applied to its own output it
returns that output unchanged: cleaning removes every banned character in
one pass, and dropping null-provenance rows from an already-filtered
table drops nothing. -/
theorem prepare_idempotent (df out : DataFrame)
    (h : prepare_df_for_ago df = some out) :
    prepare_df_for_ago out = some out := by
  unfold prepare_df_for_ago at h
  cases hfind : (df.columns.map clean_name).findIdx? (· = "LatLongSource") with
  | none => simp only [hfind] at h; exact Option.noConfusion h
  | some i =>
      simp only [hfind, Option.some.injEq] at h
      subst h
      have hcols : (df.columns.map clean_name).map clean_name
          = df.columns.map clean_name := by
        rw [List.map_map]
        exact List.map_congr_left (fun a _ => clean_name_idem a)
      have hrows : (df.rows.filter (fun r => getCell r i ≠ Value.null)).filter
            (fun r => getCell r i ≠ Value.null)
          = df.rows.filter (fun r => getCell r i ≠ Value.null) :=
        List.filter_eq_self.mpr (fun a ha => (List.mem_filter.mp ha).2)
      unfold prepare_df_for_ago
      simp only [hcols, hfind, Option.some.injEq]
      simp [hrows]

/-- C10 witness: one concrete pass then a second pass. -/
theorem prepare_idempotent_witness :
    prepare_df_for_ago dfC3 = some
        { columns := ["SiteName", "LatLongSource"]
          dtypes := [.objT, .objT]
          rows := [[.str "a", .str "GPS"], [.str "c", .str "Map"]] }
  ∧ prepare_df_for_ago
        { columns := ["SiteName", "LatLongSource"]
          dtypes := [.objT, .objT]
          rows := [[.str "a", .str "GPS"], [.str "c", .str "Map"]] }
      = some
        { columns := ["SiteName", "LatLongSource"]
          dtypes := [.objT, .objT]
          rows := [[.str "a", .str "GPS"], [.str "c", .str "Map"]] } :=
  ⟨by decide, prepare_idempotent dfC3 _ (by decide)⟩

/-- C5: the Folder Resolver returns the id of the first listed folder whose
title exactly matches, and calls the creation endpoint iff no title
matches; a second call with the same title against the resulting backend
returns the same id without invoking the creation endpoint again. -/
theorem get_ago_folderID_spec (b : AgoBackend) (name : String) :
    (∀ f, b.folders.find? (fun x => x.title = name) = some f →
        (get_ago_folderID b name).1 = f.id
      ∧ (get_ago_folderID b name).2.2 = false)
  ∧ ((get_ago_folderID b name).2.2 = true
      ↔ b.folders.find? (fun x => x.title = name) = none)
  ∧ ((get_ago_folderID (get_ago_folderID b name).2.1 name).1
        = (get_ago_folderID b name).1
    ∧ (get_ago_folderID (get_ago_folderID b name).2.1 name).2.2 = false) := by
  cases hf : b.folders.find? (fun x => x.title = name) with
  | some f =>
      rw [get_ago_folderID_found b name f hf]
      refine ⟨?_, by simp, ?_⟩
      · intro f' hf'
        cases hf'
        exact ⟨rfl, rfl⟩
      · rw [get_ago_folderID_found b name f hf]
        exact ⟨rfl, rfl⟩
  | none =>
      rw [get_ago_folderID_missing b name hf]
      refine ⟨?_, by simp, ?_⟩
      · intro f' hf'
        exact Option.noConfusion hf'
      · have hsecond :
            ((⟨b.folders ++ [⟨name, "f" ++ toString b.nextId⟩], b.nextId + 1⟩
                : AgoBackend).folders).find? (fun x => x.title = name)
              = some ⟨name, "f" ++ toString b.nextId⟩ := by
          show (b.folders ++ [(⟨name, "f" ++ toString b.nextId⟩ : Folder)]).find?
              (fun x => x.title = name) = _
          rw [List.find?_append, hf]
          simp
        dsimp only
        rw [get_ago_folderID_found _ name _ hsecond]
        exact ⟨rfl, rfl⟩

def backendC5 : AgoBackend :=
  { folders := [⟨"existing", "f0"⟩], nextId := 1 }

/-- C5 witness: resolving a fresh title against a one-folder backend. -/
theorem get_ago_folderID_spec_witness :
    (∀ f, backendC5.folders.find? (fun x => x.title = "projects") = some f →
        (get_ago_folderID backendC5 "projects").1 = f.id
      ∧ (get_ago_folderID backendC5 "projects").2.2 = false)
  ∧ ((get_ago_folderID backendC5 "projects").2.2 = true
      ↔ backendC5.folders.find? (fun x => x.title = "projects") = none)
  ∧ ((get_ago_folderID (get_ago_folderID backendC5 "projects").2.1 "projects").1
        = (get_ago_folderID backendC5 "projects").1
    ∧ (get_ago_folderID (get_ago_folderID backendC5 "projects").2.1 "projects").2.2
        = false) :=
  get_ago_folderID_spec backendC5 "projects"

/-- C6: the Service Provisioner raises an error embedding the raw response
body whenever `serviceItemId` or `encodedServiceURL` is absent — in
particular whenever both are absent, and whenever `serviceItemId` alone is
absent — and when both are present it returns the service id together with
the admin URL obtained from the public URL by substituting `/rest/` with
`/rest/admin/`. -/
theorem create_feature_service_spec (resp : ServiceResponse) :
    (resp.serviceItemId = none ∨ resp.encodedServiceURL = none →
        create_feature_service resp
          = .error ("Error creating feature service: " ++ renderResponse resp))
  ∧ (∀ sid url, resp.serviceItemId = some sid →
      resp.encodedServiceURL = some url →
        create_feature_service resp
          = .ok (sid, pyReplace url "/rest/" "/rest/admin/")) := by
  obtain ⟨si, su⟩ := resp
  cases si <;> cases su <;>
    refine ⟨fun hmiss => ?_, fun sid url hsid hurl => ?_⟩ <;>
    first
      | rfl
      | (exact Option.noConfusion hsid)
      | (exact Option.noConfusion hurl)
      | (rcases hmiss with hmiss | hmiss <;> exact Option.noConfusion hmiss)
      | (cases hsid; cases hurl; rfl)

/-- C6 witness: a response missing `serviceItemId` raises with the body in
the message; a complete response returns the id and the `/rest/admin/`
URL. -/
theorem create_feature_service_spec_witness :
    ((⟨none, some "https://a/rest/services/T"⟩ : ServiceResponse).serviceItemId = none
        ∨ (⟨none, some "https://a/rest/services/T"⟩ : ServiceResponse).encodedServiceURL = none)
  ∧ create_feature_service ⟨none, some "https://a/rest/services/T"⟩
      = .error ("Error creating feature service: "
          ++ renderResponse ⟨none, some "https://a/rest/services/T"⟩)
  ∧ (⟨some "item1", some "https://a/rest/services/T"⟩ : ServiceResponse).serviceItemId
      = some "item1"
  ∧ (⟨some "item1", some "https://a/rest/services/T"⟩ : ServiceResponse).encodedServiceURL
      = some "https://a/rest/services/T"
  ∧ create_feature_service ⟨some "item1", some "https://a/rest/services/T"⟩
      = .ok ("item1", "https://a/rest/admin/services/T")
  ∧ pyReplace "https://a/rest/services/T" "/rest/" "/rest/admin/"
      = "https://a/rest/admin/services/T" :=
  ⟨Or.inl rfl,
   (create_feature_service_spec ⟨none, some "https://a/rest/services/T"⟩).1 (Or.inl rfl),
   rfl, rfl,
   by
     rw [(create_feature_service_spec
       ⟨some "item1", some "https://a/rest/services/T"⟩).2
         "item1" "https://a/rest/services/T" rfl rfl]
     exact congrArg
       (fun u => (Except.ok ("item1", u) : Except String (String × String)))
       (by decide : pyReplace "https://a/rest/services/T" "/rest/" "/rest/admin/"
           = "https://a/rest/admin/services/T"),
   by decide⟩

/-- C7: for an input table of N rows of which K fail attribute
construction, the Feature Uploader builds a batch of exactly N−K features
— the rows that succeeded, in order — and logs each of the K failing rows
individually; no row-level failure aborts the batch. -/
theorem add_features_batch (cols : List String) (rows : List (List Value))
    (latcol loncol : String) (respond : List Feature → UploadResponse) :
    (add_features cols rows latcol loncol respond).submitted
        = rows.filterMap (buildFeature cols latcol loncol)
  ∧ (add_features cols rows latcol loncol respond).submitted.length
        + rows.countP (fun r => (buildFeature cols latcol loncol r).isNone)
      = rows.length
  ∧ (add_features cols rows latcol loncol respond).skippedLogs
      = rows.countP (fun r => (buildFeature cols latcol loncol r).isNone) := by
  have hsub : (add_features cols rows latcol loncol respond).submitted
      = rows.filterMap (buildFeature cols latcol loncol)
    ∧ (add_features cols rows latcol loncol respond).skippedLogs
      = rows.countP (fun r => (buildFeature cols latcol loncol r).isNone) := by
    simp only [add_features]
    by_cases he : (rows.filterMap (buildFeature cols latcol loncol)).isEmpty = true
    · rw [if_pos he]
      exact ⟨(List.isEmpty_iff.mp he).symm, rfl⟩
    · rw [if_neg he]
      cases respond (rows.filterMap (buildFeature cols latcol loncol)) with
      | transportFailure => exact ⟨rfl, rfl⟩
      | ok o =>
          cases o with
          | none => exact ⟨rfl, rfl⟩
          | some rs => exact ⟨rfl, rfl⟩
  refine ⟨hsub.1, ?_, hsub.2⟩
  rw [hsub.1]
  exact length_filterMap_add_countP_none _ rows

def colsC7 : List String := ["Nm", "Lat", "Lon"]

def rowsC7 : List (List Value) :=
  [[.str "a", .num 1, .num 2],
   [.str "b", .null, .num 3],
   [.str "c", .num 4, .num 5]]

/-- C7 witness: three rows of which one has a null latitude — the batch
has exactly two features and one skipped row is logged. -/
theorem add_features_batch_witness :
    ((add_features colsC7 rowsC7 "Lat" "Lon"
          (fun _ => .ok (some [⟨true⟩, ⟨true⟩]))).submitted
        = rowsC7.filterMap (buildFeature colsC7 "Lat" "Lon")
      ∧ (add_features colsC7 rowsC7 "Lat" "Lon"
            (fun _ => .ok (some [⟨true⟩, ⟨true⟩]))).submitted.length
          + rowsC7.countP (fun r => (buildFeature colsC7 "Lat" "Lon" r).isNone)
        = rowsC7.length
      ∧ (add_features colsC7 rowsC7 "Lat" "Lon"
            (fun _ => .ok (some [⟨true⟩, ⟨true⟩]))).skippedLogs
        = rowsC7.countP (fun r => (buildFeature colsC7 "Lat" "Lon" r).isNone))
  ∧ (add_features colsC7 rowsC7 "Lat" "Lon"
        (fun _ => .ok (some [⟨true⟩, ⟨true⟩]))).submitted.length = 2
  ∧ (add_features colsC7 rowsC7 "Lat" "Lon"
        (fun _ => .ok (some [⟨true⟩, ⟨true⟩]))).skippedLogs = 1
  ∧ rowsC7.length = 3 :=
  ⟨add_features_batch colsC7 rowsC7 "Lat" "Lon" (fun _ => .ok (some [⟨true⟩, ⟨true⟩])),
   by decide, by decide, by decide⟩

/-- C8: the Feature Uploader never raises — on a transport/HTTP failure of
the batch submission it logs the failure and returns an empty result
list, and on a response carrying `addResults` (including partial
per-feature failure) it returns that raw list unchanged. -/
theorem add_features_no_raise (cols : List String) (rows : List (List Value))
    (latcol loncol : String) (respond : List Feature → UploadResponse) :
    (respond (rows.filterMap (buildFeature cols latcol loncol)) = .transportFailure →
      (rows.filterMap (buildFeature cols latcol loncol)).isEmpty = false →
        (add_features cols rows latcol loncol respond).results = []
      ∧ (add_features cols rows latcol loncol respond).transportErrorLogged = true)
  ∧ (∀ rs, respond (rows.filterMap (buildFeature cols latcol loncol)) = .ok (some rs) →
      (rows.filterMap (buildFeature cols latcol loncol)).isEmpty = false →
        (add_features cols rows latcol loncol respond).results = rs)
  ∧ ((rows.filterMap (buildFeature cols latcol loncol)).isEmpty = true →
        (add_features cols rows latcol loncol respond).results = []
      ∧ (add_features cols rows latcol loncol respond).networkCall = false) := by
  refine ⟨?_, ?_, ?_⟩
  · intro hresp hne
    simp only [add_features]
    rw [if_neg (by simp [hne]), hresp]
    exact ⟨rfl, rfl⟩
  · intro rs hresp hne
    simp only [add_features]
    rw [if_neg (by simp [hne]), hresp]
  · intro he
    simp only [add_features]
    rw [if_pos he]
    exact ⟨rfl, rfl⟩

/-- C8 witness: a transport failure yields an empty result list with the
failure logged; a partial per-feature failure response (one success, one
failure) is returned raw, without raising. -/
theorem add_features_no_raise_witness :
    ((rowsC7.filterMap (buildFeature colsC7 "Lat" "Lon")).isEmpty = false
      ∧ (add_features colsC7 rowsC7 "Lat" "Lon"
            (fun _ => .transportFailure)).results = []
      ∧ (add_features colsC7 rowsC7 "Lat" "Lon"
            (fun _ => .transportFailure)).transportErrorLogged = true)
  ∧ (add_features colsC7 rowsC7 "Lat" "Lon"
        (fun _ => .ok (some [⟨false⟩, ⟨true⟩]))).results = [⟨false⟩, ⟨true⟩] :=
  ⟨⟨by decide,
    (add_features_no_raise colsC7 rowsC7 "Lat" "Lon"
        (fun _ => .transportFailure)).1 rfl (by decide)⟩,
   (add_features_no_raise colsC7 rowsC7 "Lat" "Lon"
      (fun _ => .ok (some [⟨false⟩, ⟨true⟩]))).2.1
        [⟨false⟩, ⟨true⟩] rfl (by decide)⟩
